import Mathlib

/-
Verification development for the snippet playback synchronization engine
of the guessify repository.  The engine lives in the player provider
component (two historical variants appear in the source; line references
below use the concatenated provider file).  Timestamps and millisecond
quantities are modelled as integers; asynchronous continuations are
modelled as explicit step functions on an engine state, with oracles for
transport responses and clock readings.  Transport commands that the
modelled runs issue are assumed to resolve successfully (command failures
are orthogonal to the claims settled here and are noted where relevant).
-/

namespace Guessify

/-- Playback status, from the PlayerState interface of the provider. -/
inductive Status
  | idle
  | requesting
  | seeking
  | playing
  | paused
  | ended
  | error
deriving DecidableEq, Repr

/-- The PlayerState record of the provider. -/
structure PlayerState where
  status : Status
  currentRequestId : Option Nat
  isPlaying : Bool
  startTs : Option Int
  durationMs : Option Int
  progressMs : Int
deriving DecidableEq, Repr

/-- The initial player state used by the provider (and the reset value of
cancelAllRequests). -/
def initialPlayerState : PlayerState :=
  { status := Status.idle
    currentRequestId := none
    isPlaying := false
    startTs := none
    durationMs := none
    progressMs := 0 }

/-- Parameters of a playSnippet call. -/
structure PlaySnippetParams where
  uri : String
  startMs : Int
  durationMs : Int
deriving DecidableEq, Repr

/-- Events delivered to subscribers.  Each lifecycle event is tagged with
the id of the request whose continuation emitted it, so traces can be
inspected for stale deliveries. -/
inductive Event
  | startEv (emitter : Nat) (durationMs : Int)
  | progressEv (emitter : Nat) (progressMs : Int)
  | endEv (emitter : Nat)
  | errorEv (emitter : Nat) (msg : String)
  | stateChange (s : PlayerState)
deriving DecidableEq, Repr

/-- Commands issued to the transport (the remote player). -/
inductive Command
  | pauseCmd
  | seekCmd (ms : Int)
  | playCmd (uri : String) (positionMs : Int)
deriving DecidableEq, Repr

/-- A single entry of the observable trace: either a transport command or
an event emission. -/
inductive Item
  | cmd (c : Command)
  | ev (e : Event)
deriving DecidableEq, Repr

/-- Closure data captured by startRAFProgressLoop for its tick callback. -/
structure RafClosure where
  requestId : Nat
  trueStartTs : Int
  durationMs : Int
deriving DecidableEq, Repr

/-- Closure data captured by startPollingCorrectionLoop for its poll
callback. -/
structure PollClosure where
  requestId : Nat
  trueStartTs : Int
  startMs : Int
  durationMs : Int
deriving DecidableEq, Repr

/-- The mutable refs of the provider plus the observable trace.
rafArmed / pollArmed / endTimeoutArmed model the pending
requestAnimationFrame callback, the pending poll continuation and the
pending waitForSnippetEnd timeout respectively. -/
structure EngineState where
  playRequestId : Nat
  currentRequest : Option Nat
  controllers : List Nat
  abortedIds : List Nat
  lastRequestParams : Option PlaySnippetParams
  trueStartTsRef : Option Int
  rafArmed : Option RafClosure
  pollArmed : Option PollClosure
  endTimeoutArmed : Option Nat
  playerConnected : Bool
  playerState : PlayerState
  replayTimeout : Option PlaySnippetParams
  log : List Item
deriving DecidableEq, Repr

/-- Fresh engine state (all refs at their initial values). -/
def initialEngineState (connected : Bool) : EngineState :=
  { playRequestId := 0
    currentRequest := none
    controllers := []
    abortedIds := []
    lastRequestParams := none
    trueStartTsRef := none
    rafArmed := none
    pollArmed := none
    endTimeoutArmed := none
    playerConnected := connected
    playerState := initialPlayerState
    replayTimeout := none
    log := [] }

/-- updatePlayerState: merge the update into the player state and notify
the state-change listeners with the new snapshot. -/
def updatePlayerState (s : EngineState) (f : PlayerState → PlayerState) : EngineState :=
  let ns := f s.playerState
  { s with playerState := ns, log := s.log ++ [Item.ev (Event.stateChange ns)] }

/-- cleanupRequest: clear the RAF handle and the poll timer, drop the
request from the requests map, and clear currentRequest if it was this
request.  The waitForSnippetEnd timeout is not touched here. -/
def cleanupRequest (s : EngineState) (requestId : Nat) : EngineState :=
  let s1 := { s with rafArmed := none, pollArmed := none }
  let s2 := { s1 with controllers := s1.controllers.erase requestId }
  if s2.currentRequest = some requestId then
    { s2 with currentRequest := none }
  else s2

/-- cancelAllRequests: abort every registered controller (which
synchronously fires the abort listeners, clearing any snippet-end timeout
owned by an aborted request), clear the requests map, run cleanupRequest
on the current counter value, pause the player when one exists, and reset
the player state to idle. -/
def cancelAllRequests (s : EngineState) : EngineState :=
  let cleared : Option Nat :=
    match s.endTimeoutArmed with
    | some id => if id ∈ s.controllers then none else some id
    | none => none
  let s1 := { s with
    abortedIds := s.abortedIds ++ s.controllers
    controllers := []
    endTimeoutArmed := cleared }
  let s2 := cleanupRequest s1 s1.playRequestId
  let s3 :=
    if s2.playerConnected then
      { s2 with log := s2.log ++ [Item.cmd Command.pauseCmd] }
    else s2
  updatePlayerState s3 (fun _ => initialPlayerState)

/-- stop: awaits cancelAllRequests. -/
def stop (s : EngineState) : EngineState :=
  cancelAllRequests s

/-- One tick of the RAF progress loop.  The elapsed value is computed from
the trueStartTs captured in the closure when the loop was started; the
tick reads nothing from trueStartTsRef.  A stale tick (captured id differs
from the counter) returns without doing anything. -/
def rafTick (s : EngineState) (c : RafClosure) (now : Int) : EngineState :=
  if c.requestId ≠ s.playRequestId then s
  else
    let elapsed := now - c.trueStartTs
    let progressMs := min elapsed c.durationMs
    let s1 := { s with log := s.log ++ [Item.ev (Event.progressEv c.requestId progressMs)] }
    let s2 := updatePlayerState s1 (fun p => { p with progressMs := progressMs })
    if c.durationMs ≤ elapsed then s2
    else { s2 with rafArmed := some c }

/-- Scheduler action: fire the pending RAF callback, if one is armed. -/
def fireRaf (s : EngineState) (now : Int) : EngineState :=
  match s.rafArmed with
  | none => s
  | some c => rafTick { s with rafArmed := none } c now

/-- Outcome of one getCurrentState call inside the correction loop. -/
inductive PollResponse
  | throwErr
  | noState
  | state (positionMs : Int)
deriving DecidableEq, Repr

/-- One uninterrupted iteration of the polling correction loop: the
composition of its entry check and its two awaited continuations in the
runs where no supersession occurs between the entry check and the
iteration's completion.  A poll that is stale at entry returns without
doing anything.  A null state or a thrown getCurrentState reschedules the
poll.  Otherwise the loop compares the reported elapsed position with the
wall-clock elapsed time, re-bases trueStartTsRef when they diverge by more
than 100ms, and enforces the stop (pause, emit end, transition to ended,
cleanup) once the reported elapsed position reaches durationMs - 40; below
that threshold it reschedules itself.  The pause command issued by the
stop branch is modelled as resolving successfully.  The code checks the
request id only at entry, never after the getCurrentState or pause
round trips; the interruptible form of the iteration is given by
pollEntry, pollResume and pollAfterPause below, and pollStep coincides
with their composition (pollStep_eq_split). -/
def pollStep (s : EngineState) (c : PollClosure) (resp : PollResponse) (now : Int) :
    EngineState :=
  if c.requestId ≠ s.playRequestId then s
  else
    match resp with
    | PollResponse.throwErr => { s with pollArmed := some c }
    | PollResponse.noState => { s with pollArmed := some c }
    | PollResponse.state actualPos =>
      let wallElapsed := now - c.trueStartTs
      let posElapsed := actualPos - c.startMs
      let s1 :=
        if 100 < |posElapsed - wallElapsed| then
          { s with trueStartTsRef := some (now - posElapsed) }
        else s
      if c.durationMs - 40 ≤ posElapsed then
        let s2 := { s1 with log := s1.log ++ [Item.cmd Command.pauseCmd] }
        let s3 := { s2 with log := s2.log ++ [Item.ev (Event.endEv c.requestId)] }
        let s4 := updatePlayerState s3
          (fun p => { p with status := Status.ended, isPlaying := false })
        cleanupRequest s4 c.requestId
      else { s1 with pollArmed := some c }

/-- Scheduler action: run the pending poll continuation, if one is armed,
against the given transport response, as an uninterrupted iteration. -/
def firePoll (s : EngineState) (resp : PollResponse) (now : Int) : EngineState :=
  match s.pollArmed with
  | none => s
  | some c => pollStep { s with pollArmed := none } c resp now

/-- The synchronous prefix of one poll iteration: the pending callback is
consumed, and the captured request id is compared with the current counter
— this is the only id check the iteration ever performs.  A stale poll
stops here; a fresh one proceeds to suspend on its getCurrentState round
trip, returning the closure its continuation will run with. -/
def pollEntry (s : EngineState) : EngineState × Option PollClosure :=
  match s.pollArmed with
  | none => (s, none)
  | some c =>
    let s1 := { s with pollArmed := none }
    if c.requestId ≠ s1.playRequestId then (s1, none)
    else (s1, some c)

/-- The poll continuation after getCurrentState resolves.  No id re-check
occurs here: whatever the current counter now is, a null state or a thrown
read reschedules the poll, and otherwise the drift re-base and the stop
threshold are evaluated.  When the stop branch is taken the iteration
issues pause and suspends again (the returned flag); the emission happens
in the post-pause continuation. -/
def pollResume (s : EngineState) (c : PollClosure) (resp : PollResponse) (now : Int) :
    EngineState × Bool :=
  match resp with
  | PollResponse.throwErr => ({ s with pollArmed := some c }, false)
  | PollResponse.noState => ({ s with pollArmed := some c }, false)
  | PollResponse.state actualPos =>
    let wallElapsed := now - c.trueStartTs
    let posElapsed := actualPos - c.startMs
    let s1 :=
      if 100 < |posElapsed - wallElapsed| then
        { s with trueStartTsRef := some (now - posElapsed) }
      else s
    if c.durationMs - 40 ≤ posElapsed then
      ({ s1 with log := s1.log ++ [Item.cmd Command.pauseCmd] }, true)
    else ({ s1 with pollArmed := some c }, false)

/-- The poll continuation after the stop branch's pause resolves: emit the
end event, transition to ended, and clean up — again with no id
re-check. -/
def pollAfterPause (s : EngineState) (c : PollClosure) : EngineState :=
  let s1 := { s with log := s.log ++ [Item.ev (Event.endEv c.requestId)] }
  let s2 := updatePlayerState s1
    (fun p => { p with status := Status.ended, isPlaying := false })
  cleanupRequest s2 c.requestId

/-- The waitForSnippetEnd timeout callback: pause the player (optional
chaining, so only when one exists), reset the player state to ended, then
emit the end event.  The callback performs no staleness check. -/
def endTimeoutFire (s : EngineState) (requestId : Nat) : EngineState :=
  let s1 :=
    if s.playerConnected then
      { s with log := s.log ++ [Item.cmd Command.pauseCmd] }
    else s
  let s2 := updatePlayerState s1
    (fun p => { p with
      status := Status.ended
      isPlaying := false
      startTs := none
      durationMs := none
      progressMs := 0 })
  { s2 with log := s2.log ++ [Item.ev (Event.endEv requestId)] }

/-- Scheduler action: fire the pending snippet-end timeout, if armed. -/
def fireEndTimeout (s : EngineState) : EngineState :=
  match s.endTimeoutArmed with
  | none => s
  | some id => endTimeoutFire { s with endTimeoutArmed := none } id

/-- Start-time clamping performed by playSnippet before seeking: keep the
snippet clear of the (assumed 180000ms) track end. -/
def clampStartMs (startMs durationMs : Int) : Int :=
  let safeStartMs := max 0 startMs
  if 180000 ≤ safeStartMs + durationMs then max 0 (180000 - durationMs - 500)
  else startMs

/-- The synchronous head of playSnippet: mint the next request id, cancel
the previous request when one is current, register the new abort
controller and make the request current.  Returns the minted id. -/
def playSnippetBegin (s : EngineState) (_params : PlaySnippetParams) :
    EngineState × Nat :=
  let requestId := s.playRequestId + 1
  let s1 := { s with playRequestId := requestId }
  let s2 := if s1.currentRequest.isSome then cancelAllRequests s1 else s1
  let s3 := { s2 with
    controllers := s2.controllers ++ [requestId]
    currentRequest := some requestId }
  (s3, requestId)

/-- The continuation chain of playSnippet between its head and the timing
step, in the run where connect resolves (the device is already connected),
play succeeds, the immediate getCurrentState check of waitForTrackLoaded
reports the track as loaded, and safeSeek succeeds on its first attempt.
None of these resolution paths re-check the request id or the abort
signal. -/
def playSnippetProceed (s : EngineState) (params : PlaySnippetParams) : EngineState :=
  let s1 := { s with log := s.log ++ [Item.cmd (Command.playCmd params.uri 0)] }
  { s1 with log := s1.log ++
      [Item.cmd (Command.seekCmd (clampStartMs params.startMs params.durationMs))] }

/-- The continuation of playSnippet after safeSeek resolves: record the
(clamped) parameters for replay, set the playing state, emit start, start
both loops, and arm the waitForSnippetEnd timeout unless the request's
abort signal is already aborted.  No request-id check appears on this
path. -/
def playSnippetAfterSeek (s : EngineState) (requestId : Nat)
    (params : PlaySnippetParams) (now : Int) : EngineState :=
  let adjStart := clampStartMs params.startMs params.durationMs
  let trueStart := now
  let adjParams : PlaySnippetParams := { params with startMs := adjStart }
  let s1 := { s with lastRequestParams := some adjParams }
  let s2 := updatePlayerState s1
    (fun p => { p with
      status := Status.playing
      isPlaying := true
      startTs := some trueStart
      durationMs := some params.durationMs
      progressMs := 0 })
  let s3 := { s2 with log := s2.log ++
    [Item.ev (Event.startEv requestId params.durationMs)] }
  let rafC : RafClosure :=
    { requestId := requestId, trueStartTs := trueStart, durationMs := params.durationMs }
  let pollC : PollClosure :=
    { requestId := requestId, trueStartTs := trueStart, startMs := adjStart,
      durationMs := params.durationMs }
  let s4 := { s3 with rafArmed := some rafC, pollArmed := some pollC }
  if requestId ∈ s4.abortedIds then s4
  else { s4 with endTimeoutArmed := some requestId }

/-- The catch continuation of the second provider variant's playSnippet:
a supersession abort returns silently; any other error is emitted to the
error listeners and the status is set to error before rethrowing. -/
def playSnippetOnError (s : EngineState) (requestId : Nat) (msg : String) :
    EngineState :=
  if msg = "aborted" then s
  else
    let s1 := { s with log := s.log ++ [Item.ev (Event.errorEv requestId msg)] }
    updatePlayerState s1 (fun p => { p with status := Status.error })

/-- replay: with no recorded parameters, warn and return; otherwise clear
any pending debounce timer and arm a fresh 100ms debounce that will invoke
playSnippet with the recorded parameters. -/
def replay (s : EngineState) : EngineState :=
  match s.lastRequestParams with
  | none => s
  | some p => { s with replayTimeout := some p }

/-- A getCurrentState snapshot as inspected by seekThenConfirm: the
position field when it is a number, plus the paused and loading flags. -/
structure SeekPollState where
  position : Option Int
  paused : Bool
  loading : Bool
deriving DecidableEq, Repr

/-- Outcome of one getCurrentState call inside seekThenConfirm: a thrown
call, or a resolved (possibly null) snapshot. -/
inductive SeekResp
  | exn
  | ok (st : Option SeekPollState)
deriving DecidableEq, Repr

/-- Outcome of the bounded confirmation loop of seekThenConfirm. -/
inductive LoopOutcome
  | confirmedLoop (pos : Int)
  | abortedLoop
  | exhausted
deriving DecidableEq, Repr

/-- Result of seekThenConfirm: a confirmed position, the supersession
abort, or the confirmation-timeout error. -/
inductive SeekResult
  | confirmed (pos : Int)
  | abortedThrow
  | seekTimeout
deriving DecidableEq, Repr

/-- The bounded confirmation loop of the first variant's seekThenConfirm:
each iteration first checks the abort signal, then reads the player state;
a thrown read, a null state or a non-numeric position waits 50ms and
continues; a numeric position confirms when it has reached targetMs - 100
and the snapshot reports active playback, and otherwise waits 50ms and
continues.  The first argument of the recursion is the remaining attempt
budget, the second the iteration index (used by the oracles). -/
def seekConfirmLoop (targetMs : Int) (aborted : Nat → Bool)
    (resp : Nat → SeekResp) : Nat → Nat → LoopOutcome
  | 0, _ => LoopOutcome.exhausted
  | fuel + 1, i =>
    if aborted i then LoopOutcome.abortedLoop
    else
      match resp i with
      | SeekResp.exn => seekConfirmLoop targetMs aborted resp fuel (i + 1)
      | SeekResp.ok none => seekConfirmLoop targetMs aborted resp fuel (i + 1)
      | SeekResp.ok (some st) =>
        match st.position with
        | none => seekConfirmLoop targetMs aborted resp fuel (i + 1)
        | some pos =>
          if targetMs - 100 ≤ pos ∧ st.paused = false ∧ st.loading = false then
            LoopOutcome.confirmedLoop pos
          else seekConfirmLoop targetMs aborted resp fuel (i + 1)

/-- The fallback tail of the first variant's seekThenConfirm: one fresh
getCurrentState read; any numeric position it reports is treated as the
confirmed position (the paused and loading flags are not consulted);
otherwise the confirmation-timeout error is thrown. -/
def fallbackResult (fb : SeekResp) : SeekResult :=
  match fb with
  | SeekResp.ok (some st) =>
    match st.position with
    | some pos => SeekResult.confirmed pos
    | none => SeekResult.seekTimeout
  | _ => SeekResult.seekTimeout

/-- The first variant's seekThenConfirm: issue the seek, run the 40-attempt
confirmation loop, and on exhaustion fall through to the single fallback
read. -/
def seekThenConfirm (targetMs : Int) (aborted : Nat → Bool)
    (resp : Nat → SeekResp) (fallback : SeekResp) : SeekResult :=
  match seekConfirmLoop targetMs aborted resp 40 0 with
  | LoopOutcome.confirmedLoop pos => SeekResult.confirmed pos
  | LoopOutcome.abortedLoop => SeekResult.abortedThrow
  | LoopOutcome.exhausted => fallbackResult fallback

/-- Whether one confirmation-loop response confirms the target, and with
which position; mirrors the success condition of one loop iteration. -/
def seekRespConfirms (targetMs : Int) (r : SeekResp) : Option Int :=
  match r with
  | SeekResp.ok (some st) =>
    match st.position with
    | some pos =>
      if targetMs - 100 ≤ pos ∧ st.paused = false ∧ st.loading = false then some pos
      else none
    | none => none
  | _ => none

/-- The progress values emitted by a run of the RAF loop whose ticks fire
at the given timestamps: each tick emits min(now - trueStartTs,
durationMs), and the loop stops rescheduling once the elapsed time reaches
the duration (that final tick still emits). -/
def rafRun (t0 d : Int) : List Int → List Int
  | [] => []
  | now :: rest =>
    let elapsed := now - t0
    let p := min elapsed d
    if d ≤ elapsed then [p] else p :: rafRun t0 d rest

/-- Subscription: the provider pushes the callback onto the listener
array. -/
def subscribeCb {α : Type} (subs : List α) (cb : α) : List α :=
  subs ++ [cb]

/-- Event delivery: the provider iterates the listener array with each
call wrapped in try/catch, so a throwing subscriber is recorded like any
other and the iteration continues; the result list records each
invocation's outcome in invocation order. -/
def deliverAll {α β : Type} (subs : List (α → Except String β)) (x : α) :
    List (Except String β) :=
  subs.foldl (fun acc cb => acc ++ [cb x]) []

/-- Parameters of the first request in the supersession trace. -/
def c1_params1 : PlaySnippetParams := { uri := "track-A", startMs := 10000, durationMs := 5000 }

/-- Parameters of the second (superseding) request in the supersession
trace. -/
def c1_params2 : PlaySnippetParams := { uri := "track-B", startMs := 30000, durationMs := 5000 }

/-- Supersession trace: request 1 is minted and proceeds through play and
seek; request 2 is minted (cancelling request 1) while request 1 is
suspended on its seek round trip; request 1's post-seek continuation then
resolves.  This is a legal serialization of the event loop, since nothing
on request 1's resolution path re-checks the request id or the abort
signal. -/
def c1_trace : EngineState :=
  let s0 := initialEngineState true
  let a := playSnippetBegin s0 c1_params1
  let s1 := playSnippetProceed a.1 c1_params1
  let b := playSnippetBegin s1 c1_params2
  playSnippetAfterSeek b.1 a.2 c1_params1 5000

/-- Mid-round-trip supersession trace: request 1 reaches playing and its
first poll passes the entry id check (the only one the iteration has),
then suspends on its getCurrentState round trip; request 2 is minted
while the poll is suspended; the poll's continuation then resolves with
the device reporting position 14960 (reported elapsed 4960, past the stop
threshold 4960), so the superseded poll re-bases the baseline, issues
pause, and — after the pause round trip, still without any id check —
emits end and transitions the state to ended. -/
def c1_pollTrace : EngineState :=
  let s0 := initialEngineState true
  let a := playSnippetBegin s0 c1_params1
  let s1 := playSnippetProceed a.1 c1_params1
  let s2 := playSnippetAfterSeek s1 a.2 c1_params1 0
  let e := pollEntry s2
  let b := playSnippetBegin e.1 c1_params2
  match e.2 with
  | some c =>
    let r := pollResume b.1 c (PollResponse.state 14960) 300
    if r.2 then pollAfterPause r.1 c else r.1
  | none => b.1

/-- Parameters of the single request in the double-end trace. -/
def c2_params : PlaySnippetParams := { uri := "track-A", startMs := 0, durationMs := 1000 }

/-- Double-end trace: one request runs to the playing state unsuperseded;
at wall time 500 the correction poll observes the device already at
reported elapsed 1000 (≥ durationMs - 40) and enforces the stop; the
waitForSnippetEnd timeout, which the poll stop branch never disarms, then
fires at wall time 1000. -/
def c2_trace : EngineState :=
  let s0 := initialEngineState true
  let a := playSnippetBegin s0 c2_params
  let s1 := playSnippetProceed a.1 c2_params
  let s2 := playSnippetAfterSeek s1 a.2 c2_params 0
  let s3 := firePoll s2 (PollResponse.state 1000) 500
  fireEndTimeout s3

/-- Parameters of the single request in the drift-correction trace. -/
def c3_params : PlaySnippetParams := { uri := "track-A", startMs := 0, durationMs := 30000 }

/-- Drift-correction trace: one request starts its loops at wall time 0;
at wall time 1000 the correction poll observes reported position 5000
(drift 4000 > 100) and re-bases trueStartTsRef to -4000; the next RAF tick
fires at wall time 1100. -/
def c3_trace : EngineState :=
  let s0 := initialEngineState true
  let a := playSnippetBegin s0 c3_params
  let s1 := playSnippetProceed a.1 c3_params
  let s2 := playSnippetAfterSeek s1 a.2 c3_params 0
  let s3 := firePoll s2 (PollResponse.state 5000) 1000
  fireRaf s3 1100

/-- Confirmation-loop oracle for the seek-confirmation counterexample:
every poll during the loop reports position 1000 with playback paused. -/
def c5_loopResp : Nat → SeekResp :=
  fun _ => SeekResp.ok (some { position := some 1000, paused := true, loading := false })

/-- Confirmation-loop oracle for the seek-confirmation witness: the first
three polls report a null state, the fourth reports position 950 with
playback active. -/
def c5_witResp : Nat → SeekResp :=
  fun i =>
    if i < 3 then SeekResp.ok none
    else SeekResp.ok (some { position := some 950, paused := false, loading := false })

/-- All engine refs except the observable trace log: the final state that
two consecutive stop calls are compared on. -/
structure EngineCore where
  playRequestId : Nat
  currentRequest : Option Nat
  controllers : List Nat
  abortedIds : List Nat
  lastRequestParams : Option PlaySnippetParams
  trueStartTsRef : Option Int
  rafArmed : Option RafClosure
  pollArmed : Option PollClosure
  endTimeoutArmed : Option Nat
  playerConnected : Bool
  playerState : PlayerState
  replayTimeout : Option PlaySnippetParams
deriving DecidableEq, Repr

/-- Project the engine refs out of a state, dropping the trace log. -/
def EngineState.core (s : EngineState) : EngineCore :=
  { playRequestId := s.playRequestId
    currentRequest := s.currentRequest
    controllers := s.controllers
    abortedIds := s.abortedIds
    lastRequestParams := s.lastRequestParams
    trueStartTsRef := s.trueStartTsRef
    rafArmed := s.rafArmed
    pollArmed := s.pollArmed
    endTimeoutArmed := s.endTimeoutArmed
    playerConnected := s.playerConnected
    playerState := s.playerState
    replayTimeout := s.replayTimeout }

/-- A connected engine mid-playback, used to instantiate the stop
properties. -/
def c9_playing : EngineState :=
  { initialEngineState true with
    playRequestId := 1
    currentRequest := some 1
    controllers := [1]
    playerState := { initialPlayerState with
      status := Status.playing
      isPlaying := true
      startTs := some 0
      durationMs := some 1000
      progressMs := 250 } }

end Guessify

namespace Guessify

/-- C1 (amended): the requestAnimationFrame progress tick of the first
provider variant runs synchronously from its staleness check to its
emission, so a tick whose captured id differs from the current
playRequestIdRef value performs no state mutation, issues no command and
emits no event — its result state is exactly its input state; and the
correction-poll iteration compares its captured id at entry (the only id
check it performs, before its getCurrentState round trip), so a poll that
is stale at entry stops there, with only its spent timer slot consumed.
No more is claimed for the poll: a poll superseded after its entry check
still completes its drift re-base and stop branch (see the
counterexample), and playSnippet's own post-await continuations are not
gated at all. -/
theorem c1_stale_continuations_gate (s : EngineState) (c : RafClosure)
    (pc : PollClosure) (now : Int)
    (hr : c.requestId ≠ s.playRequestId) (hp : pc.requestId ≠ s.playRequestId) :
    rafTick s c now = s
    ∧ (s.pollArmed = some pc →
        pollEntry s = ({ s with pollArmed := none }, none)) := by
  constructor
  · simp [rafTick, hr]
  · intro harm
    simp [pollEntry, harm, hp]

/-- C1 witness: the gate theorem applied at a concrete stale tick and a
concrete poll that is stale at entry. -/
theorem c1_stale_continuations_gate_witness :
    rafTick (initialEngineState true)
        { requestId := 5, trueStartTs := 0, durationMs := 1000 } 10
      = initialEngineState true
    ∧ pollEntry { initialEngineState true with
          pollArmed := some { requestId := 5, trueStartTs := 0, startMs := 0,
                              durationMs := 1000 } }
      = ({ initialEngineState true with pollArmed := none }, none) :=
  ⟨(c1_stale_continuations_gate (initialEngineState true)
      { requestId := 5, trueStartTs := 0, durationMs := 1000 }
      { requestId := 5, trueStartTs := 0, startMs := 0, durationMs := 1000 }
      10 (by decide) (by decide)).1,
   (c1_stale_continuations_gate
      { initialEngineState true with
        pollArmed := some { requestId := 5, trueStartTs := 0, startMs := 0,
                            durationMs := 1000 } }
      { requestId := 5, trueStartTs := 0, durationMs := 1000 }
      { requestId := 5, trueStartTs := 0, startMs := 0, durationMs := 1000 }
      10 (by decide) (by decide)).2 rfl⟩

/-- C1 counterexample: in the supersession trace, request 1's post-seek
continuation runs after request 2 has become current (the counter is 2),
yet it still emits start for request 1 and mutates the player state to
playing; and in the mid-round-trip trace, request 1's poll — fresh at its
entry check but superseded while suspended on getCurrentState — still
emits end for request 1 and sets the status to ended with the counter at
2.  So it is not the case that every asynchronous continuation gates on
the current counter before mutating state or emitting, nor that only the
most recent request's start/progress/end events are ever delivered. -/
theorem c1_counterexample :
    (Item.ev (Event.startEv 1 5000) ∈ c1_trace.log
      ∧ c1_trace.playRequestId = 2
      ∧ c1_trace.playerState.status = Status.playing)
    ∧ (Item.ev (Event.endEv 1) ∈ c1_pollTrace.log
      ∧ c1_pollTrace.playRequestId = 2
      ∧ c1_pollTrace.playerState.status = Status.ended) := by
  decide

/-- Coherence of the two poll models: for a poll that is fresh at its
entry check, the atomic iteration pollStep is exactly the composition of
the post-getCurrentState continuation and (when the stop branch is taken)
the post-pause continuation, i.e. the uninterrupted run of the split
model. -/
theorem pollStep_eq_split (s : EngineState) (c : PollClosure)
    (resp : PollResponse) (now : Int) (h : c.requestId = s.playRequestId) :
    pollStep s c resp now =
      (if (pollResume s c resp now).2 then
        pollAfterPause (pollResume s c resp now).1 c
      else (pollResume s c resp now).1) := by
  cases resp with
  | throwErr => simp [pollStep, pollResume, h]
  | noState => simp [pollStep, pollResume, h]
  | state pos =>
    by_cases hd : (100 : Int) < |pos - c.startMs - (now - c.trueStartTs)| <;>
      by_cases hth : c.durationMs - 40 ≤ pos - c.startMs <;>
        simp [pollStep, pollResume, pollAfterPause, h, hd, hth,
          updatePlayerState, cleanupRequest]

/-- C2: failing-trace evaluation for the at-most-one-end claim.  In the
double-end trace the single request (id 1, never superseded, never
stopped) reaches playing, and the end event for request 1 is delivered
twice: once by the correction poll's stop branch and once by the
waitForSnippetEnd timeout, which the stop branch leaves armed. -/
theorem c2_double_end :
    c2_trace.playRequestId = 1
    ∧ c2_trace.log.count (Item.ev (Event.endEv 1)) = 2 := by
  decide

/-- C3: failing-trace evaluation for the drift-correction claim.  The
correction poll does re-base trueStartTsRef to now - reportedElapsed
(-4000 here), but the next progress tick still computes its elapsed value
from the baseline captured when the loop started: it emits 1100 (stale
baseline 0) and not 5100 (the value the corrected baseline would give). -/
theorem c3_dead_rebase :
    c3_trace.trueStartTsRef = some (-4000)
    ∧ Item.ev (Event.progressEv 1 1100) ∈ c3_trace.log
    ∧ Item.ev (Event.progressEv 1 5100) ∉ c3_trace.log := by
  decide

/-- C5 counterexample: the confirmation loop observes position 1000 on
every one of its 40 polls (playback paused, so never confirming); the
post-loop fallback read then reports no state.  The code throws the
confirmation-timeout error instead of falling back to the last
successfully-read position (1000), and in the second provider variant's
caller the surfaced error leaves the status at error, not idle. -/
theorem c5_counterexample :
    seekThenConfirm 1000 (fun _ => false) c5_loopResp (SeekResp.ok none)
      = SeekResult.seekTimeout
    ∧ c5_loopResp 0
      = SeekResp.ok (some { position := some 1000, paused := true, loading := false })
    ∧ (playSnippetOnError (initialEngineState true) 1
        "Failed to confirm seek position").playerState.status = Status.error := by
  decide

/-- C6 counterexample: a playSnippet invocation that fails with a surfaced
(non-supersession) error emits the error event and then sets the status to
error — not idle as the claim states. -/
theorem c6_counterexample :
    (playSnippetOnError (initialEngineState true) 1
        "Failed to confirm seek position").playerState.status = Status.error
    ∧ Item.ev (Event.errorEv 1 "Failed to confirm seek position")
        ∈ (playSnippetOnError (initialEngineState true) 1
            "Failed to confirm seek position").log
    ∧ Status.error ≠ Status.idle := by
  decide

/-- C4: on a poll of the active (non-stale) request whose reported elapsed
position reaches durationMs - 40, the correction loop issues pause, then
emits end, then transitions the status to ended, and does not reschedule
itself; a poll whose reported elapsed position is below durationMs - 40
issues no command, emits nothing, leaves the player state unchanged and
reschedules itself. -/
theorem c4_poll_stop_enforcement (s : EngineState) (c : PollClosure)
    (pos now : Int) (h : c.requestId = s.playRequestId) :
    (c.durationMs - 40 ≤ pos - c.startMs →
      (pollStep s c (PollResponse.state pos) now).log
        = s.log ++ [Item.cmd Command.pauseCmd, Item.ev (Event.endEv c.requestId),
            Item.ev (Event.stateChange
              { s.playerState with status := Status.ended, isPlaying := false })]
      ∧ (pollStep s c (PollResponse.state pos) now).playerState.status = Status.ended
      ∧ (pollStep s c (PollResponse.state pos) now).pollArmed = none)
    ∧ (pos - c.startMs < c.durationMs - 40 →
      (pollStep s c (PollResponse.state pos) now).log = s.log
      ∧ (pollStep s c (PollResponse.state pos) now).playerState = s.playerState
      ∧ (pollStep s c (PollResponse.state pos) now).pollArmed = some c) := by
  constructor
  · intro hth
    by_cases hc : s.currentRequest = some s.playRequestId <;>
      by_cases hd : (100 : Int) < |pos - c.startMs - (now - c.trueStartTs)| <;>
        simp [pollStep, h, hd, hth, hc, updatePlayerState, cleanupRequest]
  · intro hth
    have hth2 : ¬ (c.durationMs - 40 ≤ pos - c.startMs) := by omega
    by_cases hd : (100 : Int) < |pos - c.startMs - (now - c.trueStartTs)| <;>
      simp [pollStep, h, hd, hth2, updatePlayerState, cleanupRequest]

/-- C4 witness: the stop branch applied at a concrete active poll that
observes reported elapsed 1000 against duration 1000. -/
theorem c4_poll_stop_enforcement_witness :
    (pollStep ((playSnippetBegin (initialEngineState true)
          { uri := "track-A", startMs := 0, durationMs := 1000 }).1)
        { requestId := 1, trueStartTs := 0, startMs := 0, durationMs := 1000 }
        (PollResponse.state 1000) 500).playerState.status = Status.ended :=
  ((c4_poll_stop_enforcement _ _ 1000 500 (by decide)).1 (by decide)).2.1

/-- C6 (amended): a playSnippet invocation of the second provider variant
that fails with a surfaced (non-supersession) error first emits the error
event and then sets the status to error; the supersession abort emits
nothing and leaves the state unchanged. -/
theorem c6_error_transitions (s : EngineState) (requestId : Nat) (msg : String)
    (h : msg ≠ "aborted") :
    (playSnippetOnError s requestId msg).log
      = s.log ++ [Item.ev (Event.errorEv requestId msg),
          Item.ev (Event.stateChange { s.playerState with status := Status.error })]
    ∧ (playSnippetOnError s requestId msg).playerState.status = Status.error
    ∧ playSnippetOnError s requestId "aborted" = s := by
  simp [playSnippetOnError, h, updatePlayerState]

/-- C6 witness: a concrete surfaced error leaves the engine in error
status. -/
theorem c6_error_transitions_witness :
    (playSnippetOnError (initialEngineState true) 1
        "No device ID available").playerState.status = Status.error :=
  (c6_error_transitions (initialEngineState true) 1 "No device ID available"
    (by decide)).2.1

/-- Unfolding lemma: one non-empty step of the RAF emission sequence. -/
theorem rafRun_cons (t0 d a : Int) (rest : List Int) :
    rafRun t0 d (a :: rest)
      = min (a - t0) d :: (if d ≤ a - t0 then [] else rafRun t0 d rest) := by
  by_cases h : d ≤ a - t0 <;> simp [rafRun, h]

/-- Every value emitted by a RAF loop run is bounded by the duration. -/
theorem rafRun_bounded (t0 d : Int) :
    ∀ times : List Int, ∀ p ∈ rafRun t0 d times, p ≤ d := by
  intro times
  induction times with
  | nil => simp [rafRun]
  | cons a rest ih =>
    intro p hp
    rw [rafRun_cons] at hp
    rcases List.mem_cons.mp hp with h1 | h2
    · subst h1; exact min_le_right _ _
    · by_cases h : d ≤ a - t0
      · simp [h] at h2
      · simp only [if_neg h] at h2
        exact ih p h2

/-- The RAF emission sequence is monotone when the tick timestamps are. -/
theorem rafRun_chain (t0 d : Int) :
    ∀ times : List Int, List.Chain' (· ≤ ·) times →
      List.Chain' (· ≤ ·) (rafRun t0 d times) := by
  intro times
  induction times with
  | nil => intro _; simp [rafRun]
  | cons a rest ih =>
    intro h
    rw [rafRun_cons]
    by_cases hd : d ≤ a - t0
    · simp [hd]
    · simp only [if_neg hd]
      rw [List.chain'_cons']
      refine ⟨?_, ih h.tail⟩
      intro y hy
      cases rest with
      | nil => simp [rafRun] at hy
      | cons b rest2 =>
        rw [rafRun_cons] at hy
        simp only [List.head?_cons, Option.mem_def, Option.some.injEq] at hy
        subst hy
        have hab : a ≤ b := (List.chain'_cons.mp h).1
        exact min_le_min (by omega) le_rfl

/-- C7: within one non-superseded request, a fresh RAF tick emits exactly
min(now - trueStartTs, durationMs) (computed from the baseline captured at
loop start) followed by the matching state-change snapshot, and the
sequence of progress values emitted across a run of ticks at
non-decreasing timestamps is monotone non-decreasing with every value
bounded by durationMs. -/
theorem c7_monotone_bounded_progress (s : EngineState) (c : RafClosure)
    (now t0 d : Int) (times : List Int)
    (hfresh : c.requestId = s.playRequestId)
    (hchain : List.Chain' (· ≤ ·) times) :
    (rafTick s c now).log
      = s.log ++ [Item.ev (Event.progressEv c.requestId
            (min (now - c.trueStartTs) c.durationMs)),
          Item.ev (Event.stateChange { s.playerState with
            progressMs := min (now - c.trueStartTs) c.durationMs })]
    ∧ List.Chain' (· ≤ ·) (rafRun t0 d times)
    ∧ ∀ p ∈ rafRun t0 d times, p ≤ d := by
  refine ⟨?_, rafRun_chain t0 d times hchain, rafRun_bounded t0 d times⟩
  by_cases h2 : c.durationMs ≤ now - c.trueStartTs <;>
    simp [rafTick, hfresh, updatePlayerState, h2]

/-- C7 witness: monotone bounded emission over a concrete run of ticks. -/
theorem c7_monotone_bounded_progress_witness :
    List.Chain' (· ≤ ·) (rafRun 0 1000 [0, 16, 33, 2000])
    ∧ ∀ p ∈ rafRun 0 1000 [0, 16, 33, 2000], p ≤ 1000 :=
  ⟨(c7_monotone_bounded_progress (initialEngineState true)
      { requestId := 0, trueStartTs := 0, durationMs := 1000 } 16 0 1000
      [0, 16, 33, 2000] rfl (by norm_num [List.chain'_cons])).2.1,
   (c7_monotone_bounded_progress (initialEngineState true)
      { requestId := 0, trueStartTs := 0, durationMs := 1000 } 16 0 1000
      [0, 16, 33, 2000] rfl (by norm_num [List.chain'_cons])).2.2⟩

/-- Folding an append-accumulator over a list produces the map. -/
theorem foldl_push_eq_append {α β : Type} (g : α → β) :
    ∀ (l : List α) (acc : List β),
      l.foldl (fun a cb => a ++ [g cb]) acc = acc ++ l.map g := by
  intro l
  induction l with
  | nil => intro acc; simp
  | cons a rest ih => intro acc; simp [ih]

/-- C8: event delivery invokes every subscriber exactly once, in
subscription order — the delivery record equals the in-order map of the
subscriber list, independent of whether any individual invocation throws
(each call is wrapped in try/catch, so a thrown invocation is recorded
like any other without preventing later ones) — newly subscribed
callbacks are appended and therefore invoked last. -/
theorem c8_delivery {α β : Type} (subs : List (α → Except String β)) (x : α)
    (cb : α → Except String β) :
    deliverAll subs x = subs.map (fun f => f x)
    ∧ deliverAll (subscribeCb subs cb) x = deliverAll subs x ++ [cb x]
    ∧ (deliverAll subs x).length = subs.length := by
  have hmap : ∀ l : List (α → Except String β),
      deliverAll l x = l.map (fun f => f x) := by
    intro l
    simpa using foldl_push_eq_append (fun f => f x) l []
  refine ⟨hmap subs, ?_, ?_⟩
  · simp [hmap, subscribeCb]
  · simp [hmap]

/-- C10: replay with no recorded parameters is a pure no-op — the engine
state (including the request counter, the trace log and the pending
debounce slot) is returned unchanged. -/
theorem c10_replay_no_history (s : EngineState)
    (h : s.lastRequestParams = none) : replay s = s := by
  simp [replay, h]

/-- C10 witness: replay on a fresh engine is the identity. -/
theorem c10_replay_no_history_witness :
    (initialEngineState true).lastRequestParams = none
    ∧ replay (initialEngineState true) = initialEngineState true :=
  ⟨rfl, c10_replay_no_history (initialEngineState true) rfl⟩

/-- Unfolding lemma: one step of the seek-confirmation loop, phrased via
the confirmation predicate of a single response. -/
theorem seekConfirmLoop_step (t : Int) (ab : Nat → Bool) (resp : Nat → SeekResp)
    (fuel i : Nat) :
    seekConfirmLoop t ab resp (fuel + 1) i
      = if ab i then LoopOutcome.abortedLoop
        else
          match seekRespConfirms t (resp i) with
          | some pos => LoopOutcome.confirmedLoop pos
          | none => seekConfirmLoop t ab resp fuel (i + 1) := by
  by_cases h : ab i
  · simp [seekConfirmLoop, h]
  · cases hr : resp i with
    | exn => simp [seekConfirmLoop, seekRespConfirms, h, hr]
    | ok st =>
      cases st with
      | none => simp [seekConfirmLoop, seekRespConfirms, h, hr]
      | some sps =>
        cases hp : sps.position with
        | none => simp [seekConfirmLoop, seekRespConfirms, h, hr, hp]
        | some pos =>
          simp [seekConfirmLoop, seekRespConfirms, h, hr, hp]
          by_cases hcc : t ≤ pos + 100 ∧ sps.paused = false ∧ sps.loading = false <;>
            simp [hcc]

/-- When no iteration inside the budget aborts or confirms, the loop
exhausts its budget. -/
theorem seekConfirmLoop_exhausted (t : Int) (ab : Nat → Bool)
    (resp : Nat → SeekResp) :
    ∀ fuel i,
      (∀ j, i ≤ j → j < i + fuel →
        ab j = false ∧ seekRespConfirms t (resp j) = none) →
      seekConfirmLoop t ab resp fuel i = LoopOutcome.exhausted := by
  intro fuel
  induction fuel with
  | zero => intro i _; rfl
  | succ n ih =>
    intro i h
    have h0 := h i le_rfl (by omega)
    rw [seekConfirmLoop_step]
    simp [h0.1, h0.2]
    exact ih (i + 1) fun j hj1 hj2 => h j (by omega) (by omega)

/-- The loop succeeds on the first confirming iteration inside the
budget. -/
theorem seekConfirmLoop_confirms (t : Int) (ab : Nat → Bool)
    (resp : Nat → SeekResp) :
    ∀ fuel i k pos, i ≤ k → k < i + fuel →
      (∀ j, i ≤ j → j < k →
        ab j = false ∧ seekRespConfirms t (resp j) = none) →
      ab k = false → seekRespConfirms t (resp k) = some pos →
      seekConfirmLoop t ab resp fuel i = LoopOutcome.confirmedLoop pos := by
  intro fuel
  induction fuel with
  | zero =>
    intro i k pos h1 h2 _ _ _
    exact absurd h2 (by omega)
  | succ n ih =>
    intro i k pos hik hk h hab hconf
    rw [seekConfirmLoop_step]
    rcases Nat.eq_or_lt_of_le hik with heq | hlt
    · subst heq
      simp [hab, hconf]
    · have h0 := h i le_rfl hlt
      simp [h0.1, h0.2]
      exact ih (i + 1) k pos (by omega) (by omega)
        (fun j hj1 hj2 => h j (by omega) hj2) hab hconf

/-- The loop consults only the responses inside its attempt budget. -/
theorem seekConfirmLoop_local (t : Int) (ab : Nat → Bool)
    (resp resp2 : Nat → SeekResp) :
    ∀ fuel i, (∀ j, i ≤ j → j < i + fuel → resp j = resp2 j) →
      seekConfirmLoop t ab resp fuel i = seekConfirmLoop t ab resp2 fuel i := by
  intro fuel
  induction fuel with
  | zero => intro i _; rfl
  | succ n ih =>
    intro i h
    rw [seekConfirmLoop_step, seekConfirmLoop_step, h i le_rfl (by omega)]
    by_cases hab : ab i
    · simp [hab]
    · simp only [if_neg hab]
      cases hc : seekRespConfirms t (resp2 i) with
      | some pos => rfl
      | none =>
        simp only [hc]
        exact ih (i + 1) fun j hj1 hj2 => h j (by omega) (by omega)

/-- C5 (amended): seekThenConfirm polls at a fixed 50ms interval for at
most 40 attempts (its outcome depends only on the first 40 loop responses
and the single fallback read, so it never waits unboundedly); it succeeds
as soon as a non-aborted poll reports a numeric position of at least
target - 100 with playback active; and when every in-budget poll fails to
confirm, it performs one additional fresh read whose numeric position (if
any) is treated as the confirmed position, failing with the
confirmation-timeout error otherwise. -/
theorem c5_bounded_seek_confirmation (t : Int) (ab : Nat → Bool)
    (resp resp2 : Nat → SeekResp) (fb : SeekResp) (k : Nat) (pos : Int) :
    ((∀ i, i < 40 → resp i = resp2 i) →
        seekThenConfirm t ab resp fb = seekThenConfirm t ab resp2 fb)
    ∧ (k < 40 → (∀ i, i ≤ k → ab i = false) →
        (∀ i, i < k → seekRespConfirms t (resp i) = none) →
        seekRespConfirms t (resp k) = some pos →
        seekThenConfirm t ab resp fb = SeekResult.confirmed pos)
    ∧ ((∀ i, i < 40 → ab i = false) →
        (∀ i, i < 40 → seekRespConfirms t (resp i) = none) →
        seekThenConfirm t ab resp fb = fallbackResult fb) := by
  refine ⟨?_, ?_, ?_⟩
  · intro h
    unfold seekThenConfirm
    rw [seekConfirmLoop_local t ab resp resp2 40 0 fun j _ hj2 => h j (by omega)]
  · intro hk hab hnone hconf
    unfold seekThenConfirm
    rw [seekConfirmLoop_confirms t ab resp 40 0 k pos (Nat.zero_le k) (by omega)
      (fun j _ hj2 => ⟨hab j (by omega), hnone j hj2⟩) (hab k le_rfl) hconf]
  · intro hab hnone
    unfold seekThenConfirm
    rw [seekConfirmLoop_exhausted t ab resp 40 0
      fun j _ hj2 => ⟨hab j (by omega), hnone j (by omega)⟩]

/-- C5 witness: with three null-state polls followed by an active poll at
position 950, seekThenConfirm confirms 950 for target 1000. -/
theorem c5_bounded_seek_confirmation_witness :
    seekThenConfirm 1000 (fun _ => false) c5_witResp (SeekResp.ok none)
      = SeekResult.confirmed 950 :=
  (c5_bounded_seek_confirmation 1000 (fun _ => false) c5_witResp c5_witResp
    (SeekResp.ok none) 3 950).2.1 (by decide) (by decide) (by decide) (by decide)

/-- Characterization of stop (which awaits cancelAllRequests): all timers
cleared, all controllers aborted and dropped, any snippet-end timeout
owned by an aborted controller disarmed, the current request cleared when
it matches the counter, pause issued when a player exists, and the player
state reset to its initial value. -/
theorem stop_spec (s : EngineState) :
    stop s = { playRequestId := s.playRequestId
               currentRequest :=
                 if s.currentRequest = some s.playRequestId then none
                 else s.currentRequest
               controllers := []
               abortedIds := s.abortedIds ++ s.controllers
               lastRequestParams := s.lastRequestParams
               trueStartTsRef := s.trueStartTsRef
               rafArmed := none
               pollArmed := none
               endTimeoutArmed :=
                 match s.endTimeoutArmed with
                 | some id => if id ∈ s.controllers then none else some id
                 | none => none
               playerConnected := s.playerConnected
               playerState := initialPlayerState
               replayTimeout := s.replayTimeout
               log := s.log
                 ++ (if s.playerConnected then [Item.cmd Command.pauseCmd] else [])
                 ++ [Item.ev (Event.stateChange initialPlayerState)] } := by
  simp only [stop, cancelAllRequests, cleanupRequest, updatePlayerState]
  by_cases hcr : s.currentRequest = some s.playRequestId <;>
    by_cases hconn : s.playerConnected <;>
      cases het : s.endTimeoutArmed <;>
        simp [hcr, hconn, het]

/-- C9: stop when the player state is already idle leaves the player state
unchanged; stop is idempotent on the engine refs (two consecutive calls
end in the same final state as one); and stop during playback with a
connected player issues exactly one pause command and one idle state
change (in particular no end event), leaving the status idle and the
progress reset to 0. -/
theorem c9_stop_idempotent_effect (s : EngineState) :
    (s.playerState = initialPlayerState → (stop s).playerState = s.playerState)
    ∧ (stop (stop s)).core = (stop s).core
    ∧ (s.playerState.status = Status.playing → s.playerConnected = true →
        (stop s).log = s.log ++ [Item.cmd Command.pauseCmd,
            Item.ev (Event.stateChange initialPlayerState)]
        ∧ (stop s).playerState.status = Status.idle
        ∧ (stop s).playerState.progressMs = 0) := by
  refine ⟨?_, ?_, ?_⟩
  · intro h
    rw [stop_spec, h]
  · simp only [EngineState.core]
    rw [stop_spec s, stop_spec]
    by_cases hcr : s.currentRequest = some s.playRequestId
    · cases het : s.endTimeoutArmed with
      | none => simp [hcr, het]
      | some id => by_cases hmem : id ∈ s.controllers <;> simp [hcr, het, hmem]
    · cases het : s.endTimeoutArmed with
      | none => simp [hcr, het]
      | some id => by_cases hmem : id ∈ s.controllers <;> simp [hcr, het, hmem]
  · intro _ hconn
    rw [stop_spec]
    simp [hconn, initialPlayerState]

/-- C9 witness: the stop properties applied to a fresh idle engine and to
a concrete engine mid-playback. -/
theorem c9_stop_idempotent_effect_witness :
    (stop (initialEngineState true)).playerState
        = (initialEngineState true).playerState
    ∧ (stop (stop c9_playing)).core = (stop c9_playing).core
    ∧ (stop c9_playing).playerState.status = Status.idle :=
  ⟨(c9_stop_idempotent_effect (initialEngineState true)).1 rfl,
   (c9_stop_idempotent_effect c9_playing).2.1,
   ((c9_stop_idempotent_effect c9_playing).2.2 rfl rfl).2.1⟩

end Guessify
